import Mathlib

/-!
Verification development for the Chess Clash wagering escrow service.

The definitions below are a shallow embedding of the TypeScript sources:
* `src/src/db.ts` — the `Game` record type, the helper functions
  `validatedQueryParams`, `validateUsername`, `validateSignature`,
  `sendPayout`, `getFee`;
* `src/unnamed/part_000` — the Express route handlers `postCreateGame`,
  `postJoinGame`, `postVerifyJoinGame`, `postCompleteGame`, and the constants
  module (`TOKENS`, `SPL_MAP`).

JavaScript numbers are modelled as exact rationals (`ℚ`) wherever the code
manipulates amounts that originate from the chain or the database; the create
path additionally models the `NaN` value produced by `parseFloat` on
non-numeric input (`JSNum`).  Thrown strings are modelled as `Except String`.
External I/O (the Supabase store, the Solana RPC connection, the Lichess
attestation service) is passed in explicitly: the stored record as an
`Option Game`, the attested match statistics as an `Option GameStats`, the
username-existence check as an oracle `lichessOk : String → Bool`, and the
ledger submission outcome of each payout as an oracle `submit : Payout → Bool`.
-/

/-- Lifecycle states, from the `status` column of the `Game` type in
`src/src/db.ts` (`"created" | "matched" | "completed"`). -/
inductive Status
  | created
  | matched
  | completed
  deriving DecidableEq, Repr

/-- The `Game` record type of `src/src/db.ts`.  `created_at` is kept as an
opaque optional string; amounts read back from the store are rationals. -/
structure Game where
  id : String
  game_id : String
  username : String
  amount : ℚ
  token : String
  player_address : String
  recipient_address : String
  signature : Option String
  is_verified : Bool
  is_public : Bool
  status : Status
  opponent_username : Option String
  opponent_address : Option String
  opponent_signature : Option String
  created_at : Option String
  deriving DecidableEq, Repr

/-- A JavaScript number as produced by `parseFloat`: either an actual
(rational) number or `NaN`. -/
inductive JSNum
  | num (q : ℚ)
  | nan
  deriving DecidableEq, Repr

/-- JavaScript `<=` on numbers: any comparison involving `NaN` is `false`. -/
def jsLe : JSNum → JSNum → Bool
  | .num a, .num b => a ≤ b
  | _, _ => false

/-- The fragment of JavaScript `parseFloat` exercised by the create handler:
skips an optional sign, then reads decimal digits with an optional fractional
part.  Input with no parsable numeric prefix (e.g. `"abc"`) yields `NaN`,
which is exactly the behaviour `validatedQueryParams` is exposed to. -/
def parseFloatJS (s : String) : JSNum :=
  let cs := s.toList
  let signed : Bool × List Char :=
    match cs with
    | '-' :: rest => (true, rest)
    | '+' :: rest => (false, rest)
    | _ => (false, cs)
  let intPart := signed.2.takeWhile Char.isDigit
  let rest := signed.2.dropWhile Char.isDigit
  let fracPart :=
    match rest with
    | '.' :: r => r.takeWhile Char.isDigit
    | _ => []
  if intPart.isEmpty ∧ fracPart.isEmpty then .nan
  else
    let iv : ℕ := intPart.foldl (fun a c => a * 10 + (c.toNat - 48)) 0
    let fv : ℕ := fracPart.foldl (fun a c => a * 10 + (c.toNat - 48)) 0
    let q : ℚ := (iv : ℚ) + (fv : ℚ) / (10 : ℚ) ^ fracPart.length
    .num (if signed.1 then -q else q)

/-- `TOKENS` from the constants module: `Object.values` of
`{SOL: "SOL", USDC: "USDC", BONK: "BONK"}`. -/
def tokenValues : List String := ["SOL", "USDC", "BONK"]

/-- One entry of `SPL_MAP`: a registered mint address and its decimal
precision. -/
structure SplInfo where
  mint : String
  decimals : ℕ
  deriving DecidableEq, Repr

/-- `SPL_MAP` from the constants module: the two registered fungible tokens. -/
def SPL_MAP : List (String × SplInfo) :=
  [("USDC", ⟨"EPjFWdd5AufqSSqeM2qN1xzybapC8G4wEGGkZwyTDt1v", 6⟩),
   ("BONK", ⟨"DezXAZ8z7PnrnRJjz3wXBoRgixCa6xjnB7YaB1pPB263", 5⟩)]

/-- `SPL_MAP[token]` — lookup by token key. -/
def splMapLookup (token : String) : Option SplInfo :=
  (SPL_MAP.find? (fun kv => kv.1 = token)).map (fun kv => kv.2)

/-- `Object.values(SPL_MAP).find((t) => t.mint.toBase58() === info.mint)` in
`validateSignature` — lookup by mint address over the registered tokens. -/
def splMapFindByMint (mint : String) : Option SplInfo :=
  (SPL_MAP.find? (fun kv => kv.2.mint = mint)).map (fun kv => kv.2)

/-- `LAMPORTS_PER_SOL` from `@solana/web3.js`. -/
def LAMPORTS_PER_SOL : ℚ := 1000000000

/-- The first instruction of a parsed transaction, as `validateSignature`
inspects it: a system-program `transfer`, an SPL `transferChecked`, or any
other shape (which the duck-typed guards in the source simply skip). -/
inductive ParsedInstruction
  | systemTransfer (destination : String) (lamports : ℚ)
  | transferChecked (mint : String) (destination : String) (tokenAmount : ℚ)
  | other
  deriving DecidableEq, Repr

/-- `validateSignature` from `src/src/db.ts` (helpers, lines 328–377), applied
to the first instruction of the parsed transaction.  For `SOL` games it
requires a system `transfer` with matching destination and lamport amount; for
other games it requires a `transferChecked` whose mint is found among the
registered `SPL_MAP` values (note: found among *all* registered mints, not
compared with the game token's own mint) with matching destination and
amount.  When the first instruction does not have the guarded shape, the
function falls through both `if` bodies and returns normally. -/
def validateSignature (game : Game) (firstInstruction : ParsedInstruction) :
    Except String Unit :=
  if game.token = "SOL" then
    match firstInstruction with
    | .systemTransfer destination lamports =>
        let amountInSol := lamports / LAMPORTS_PER_SOL
        if destination = game.recipient_address ∧ amountInSol = game.amount then
          .ok ()
        else
          .error "Transaction details do not match expected values"
    | _ => .ok ()
  else
    match firstInstruction with
    | .transferChecked mint destination tokenAmount =>
        match splMapFindByMint mint with
        | none => .error "Invalid token"
        | some tokenInfo =>
            let amount := tokenAmount / (10 : ℚ) ^ tokenInfo.decimals
            if destination = game.recipient_address ∧ amount = game.amount then
              .ok ()
            else
              .error "Transaction details do not match expected values"
    | _ => .ok ()

/-- Modelled from the spec: the numeric constants `CHARGE_PERCENTAGE` and
`CAP_AMOUNT` live in `src/const.ts`, which is not among the provided sources;
the spec fixes only the formula
`fee = min(wagerAmount * feeRatePercent / 100, feeCapAmount)`, so the two
constants are carried as an explicit fee-policy parameter. -/
structure FeePolicy where
  CHARGE_PERCENTAGE : ℚ
  CAP_AMOUNT : ℚ
  deriving DecidableEq, Repr

/-- `getFee` from `src/src/db.ts` (helpers, lines 451–455):
`Math.min(amount * (CHARGE_PERCENTAGE / 100), CAP_AMOUNT)`. -/
def getFee (p : FeePolicy) (amount : ℚ) : ℚ :=
  min (amount * (p.CHARGE_PERCENTAGE / 100)) p.CAP_AMOUNT

/-- JavaScript truthiness of an optional string query parameter: present and
non-empty. -/
def jsTruthy : Option String → Bool
  | none => false
  | some s => s ≠ ""

/-- `validateUsername` from `src/src/db.ts` (lines 200–222): the username
parameter must be present and non-empty, and must resolve on the external
platform via the attestation client (`getProfileDetail`), modelled by the
oracle `lichessOk`. -/
def validateUsername (lichessOk : String → Bool) (username : Option String) :
    Except String String :=
  match username with
  | none => .error "Missing input query parameter: username"
  | some u =>
      if u = "" then .error "Missing input query parameter: username"
      else if lichessOk u then .ok u
      else .error "Ensure you have entered a valid Lichess username"

/-- The amount block of `validatedQueryParams` (`src/src/db.ts` lines
169–178): the `try` block parses the parameter with `parseFloat` and throws
when `amount <= 0`; the `catch` collapses every failure into one message.
`parseFloat` never throws, so a non-numeric parameter flows through as `NaN`,
and `NaN <= 0` is `false`. -/
def validateAmount (amount : Option String) : Except String JSNum :=
  match amount with
  | none => .error "Invalid input query parameter: amount"
  | some s =>
      if s = "" then .error "Invalid input query parameter: amount"
      else
        let a := parseFloatJS s
        if jsLe a (.num 0) then .error "Invalid input query parameter: amount"
        else .ok a

/-- The token block of `validatedQueryParams` (`src/src/db.ts` lines
180–189): the parameter must be present and one of `Object.values(TOKENS)`. -/
def validateToken (token : Option String) : Except String String :=
  match token with
  | none => .error "Missing input query parameter: token"
  | some t =>
      if t = "" then .error "Missing input query parameter: token"
      else if t ∈ tokenValues then .ok t
      else .error "Invalid input query parameter: token. Must be one of SOL, USDC, BONK"

/-- The raw create-game query parameters. -/
structure QueryParams where
  gameId : Option String
  publicFlag : Option String
  username : Option String
  amount : Option String
  token : Option String
  deriving DecidableEq, Repr

/-- The validated create-game parameters returned by `validatedQueryParams`. -/
structure CreateParams where
  amount : JSNum
  username : String
  gameId : String
  token : String
  isPublic : Bool
  deriving DecidableEq, Repr

/-- `validatedQueryParams` from `src/src/db.ts` (lines 135–198), in source
order: `gameId` presence, the `public` flag, username validation, the amount
block, the token block. -/
def validatedQueryParams (lichessOk : String → Bool) (q : QueryParams) :
    Except String CreateParams :=
  match q.gameId with
  | none => .error "Missing input query parameter: gameId"
  | some gid =>
    if gid = "" then .error "Missing input query parameter: gameId"
    else
      let isPublic := jsTruthy q.publicFlag
      match validateUsername lichessOk q.username with
      | .error e => .error e
      | .ok username =>
        match validateAmount q.amount with
        | .error e => .error e
        | .ok amount =>
          match validateToken q.token with
          | .error e => .error e
          | .ok token => .ok ⟨amount, username, gid, token, isPublic⟩

/-- `DEFAULT_SOL_ADDRESS.toBase58()` — the escrow wallet public key, read from
the environment in the constants module; opaque here. -/
def toPubkeyBase58 : String := "APP_WALLET"

/-- The row `postCreateGame` inserts through `addGame`
(`src/unnamed/part_000` lines 188–198).  The raw `parseFloat` result is
stored, so the persisted amount can be `NaN`. -/
structure NewGameRow where
  game_id : String
  username : String
  amount : JSNum
  token : String
  player_address : String
  recipient_address : String
  is_verified : Bool
  status : Status
  is_public : Bool
  deriving DecidableEq, Repr

/-- `postCreateGame` from `src/unnamed/part_000` (lines 167–236): validated
query parameters, then the client account key (parse failure modelled as
`none`), then the inserted row.  The deposit transaction the handler builds
afterwards does not touch the store and is omitted. -/
def postCreateGame (lichessOk : String → Bool) (q : QueryParams)
    (account : Option String) : Except String NewGameRow :=
  match validatedQueryParams lichessOk q with
  | .error e => .error e
  | .ok p =>
    match account with
    | none => .error "Invalid \"account\" provided"
    | some a =>
        .ok { game_id := p.gameId, username := p.username, amount := p.amount,
              token := p.token, player_address := a,
              recipient_address := toPubkeyBase58, is_verified := false,
              status := .created, is_public := p.isPublic }

/-- The wager-deposit transaction a join handler builds for the opponent to
sign: `transferSol` or `transferSPLToken` of the game's amount and token from
the joining account to the escrow. -/
structure TransferTx where
  amount : ℚ
  token : String
  fromAccount : String
  deriving DecidableEq, Repr

/-- `postJoinGame` from `src/unnamed/part_000` (lines 396–467), in source
order: username validation, `gameUid` presence, record lookup, the
verification gate, the status gate, the self-join username check, account
parsing, the self-join address check, then the deposit transaction. -/
def postJoinGame (lichessOk : String → Bool) (username gameUid : Option String)
    (game : Option Game) (account : Option String) : Except String TransferTx :=
  match validateUsername lichessOk username with
  | .error e => .error e
  | .ok u =>
    match gameUid with
    | none => .error "Missing input query parameter: gameUid"
    | some uid =>
      if uid = "" then .error "Missing input query parameter: gameUid"
      else match game with
      | none => .error "Game not found"
      | some g =>
        if g.is_verified = false then .error "Game is not verified"
        else if g.status ≠ .created then .error "Game is not available to join"
        else if g.username = u then .error "You cannot join your own game"
        else match account with
        | none => .error "Invalid \"account\" provided"
        | some a =>
          if g.player_address = a then .error "You cannot join your own game"
          else if g.token = "SOL" then .ok ⟨g.amount, g.token, a⟩
          else match splMapLookup g.token with
            | some _ => .ok ⟨g.amount, g.token, a⟩
            | none => .error "An unknown error occurred"

/-- The signature-status response: `status.value?.confirmationStatus`. -/
structure SigStatusResp where
  confirmationStatus : Option String
  deriving DecidableEq, Repr

/-- The guard `if (status.value?.confirmationStatus)` followed by the
confirmed/finalized check: a response with an absent confirmation status is
not rejected. -/
def confirmationRejected (st : SigStatusResp) : Bool :=
  match st.confirmationStatus with
  | some c => !(c == "confirmed") && !(c == "finalized")
  | none => false

/-- The execution metadata of a parsed transaction. -/
structure MetaInfo where
  err : Bool
  deriving DecidableEq, Repr

/-- A parsed transaction as the verify handlers consume it: optional metadata
and the first instruction. -/
structure ParsedTx where
  meta : Option MetaInfo
  firstInstruction : ParsedInstruction
  deriving DecidableEq, Repr

/-- `postVerifyJoinGame` from `src/unnamed/part_000` (lines 469–574), in
source order: `gameUid`, record lookup, verification gate, status gate,
username validation, self-join username check, account parsing, self-join
address check, signature presence, signature status, parsed-transaction
checks, `validateSignature`, and finally the `updateGame` patch persisting
the opponent address, signature and username. -/
def postVerifyJoinGame (lichessOk : String → Bool)
    (gameUid username : Option String) (game : Option Game)
    (account signature : Option String)
    (sigStatus : Option SigStatusResp) (parsedTx : Option ParsedTx) :
    Except String Game :=
  match gameUid with
  | none => .error "Game UID is required"
  | some uid =>
    if uid = "" then .error "Game UID is required"
    else match game with
    | none => .error "Game not found"
    | some g =>
      if g.is_verified = false then .error "Game is not verified"
      else if g.status ≠ .created then .error "Game is not available to join"
      else match validateUsername lichessOk username with
      | .error e => .error e
      | .ok u =>
        if g.username = u then .error "You cannot join your own game"
        else match account with
        | none => .error "Invalid \"account\" provided"
        | some a =>
          if g.player_address = a then .error "You cannot join your own game"
          else match signature with
          | none => .error "Invalid \"signature\" provided"
          | some sig =>
            if sig = "" then .error "Invalid \"signature\" provided"
            else match sigStatus with
            | none => .error "Unknown signature status"
            | some st =>
              if confirmationRejected st then .error "Unable to confirm the transaction"
              else match parsedTx with
              | none => .error "Invalid or failed transaction"
              | some tx =>
                match tx.meta with
                | none => .error "Invalid or failed transaction"
                | some m =>
                  if m.err then .error "Invalid or failed transaction"
                  else match validateSignature g tx.firstInstruction with
                  | .error e => .error e
                  | .ok _ =>
                    .ok { g with opponent_address := some a,
                                 opponent_signature := some sig,
                                 opponent_username := some u }

/-- Modelled from the spec: `DRAW` is a constant of `src/const.ts`, which is
not among the provided sources; per the spec the outcome resolver recognizes
exactly two conclusive status values, draw and decisive end (the Lichess
export statuses). -/
def DRAW : String := "draw"

/-- Modelled from the spec: `MATE` is the decisive-end counterpart of `DRAW`
in `src/const.ts` (see the comment there). -/
def MATE : String := "mate"

/-- The Lichess game-export record that `getGameStats` fetches through the
zk-attestation client (`src/src/proof.ts`): the terminal status, the user ids
of both sides, and the declared winning side when decisive. -/
structure GameStats where
  status : String
  whiteId : String
  blackId : String
  winner : Option String
  deriving DecidableEq, Repr

/-- One `sendPayout` invocation (`src/src/db.ts` lines 393–449): the
recipient, amount and token of the ledger transfer the house submits. -/
structure Payout where
  recipientAddress : String
  amount : ℚ
  token : String
  deriving DecidableEq, Repr

/-- The value `sendPayout` returns: the function catches every ledger error
internally and reports failure through `success := false` instead of
throwing. -/
structure PayoutResult where
  success : Bool
  deriving DecidableEq, Repr

/-- `sendPayout`, with the ledger submission outcome supplied by the oracle
`submit`. -/
def sendPayout (submit : Payout → Bool) (p : Payout) : PayoutResult :=
  { success := submit p }

/-- `players[stat.winner as "white" | "black"]` in `postCompleteGame`: the
user id of the declared winning side; any other winner value leaves the
JavaScript variable `undefined`, which interpolates into the error message as
the string `"undefined"`. -/
def lichessWinnerId (stat : GameStats) : String :=
  match stat.winner with
  | some "white" => stat.whiteId
  | some "black" => stat.blackId
  | _ => "undefined"

/-- The object literal
`[game.username]: player_address, [game.opponent_username!]: opponent_address`
followed by `addresses[winner]` in `postCompleteGame`: on a key collision the
later entry wins, and an absent opponent username produces the literal key
`"undefined"`. -/
def addressesLookup (game : Game) (winner : String) : Option String :=
  if winner = game.opponent_username.getD "undefined" then game.opponent_address
  else if winner = game.username then some game.player_address
  else none

/-- `postCompleteGame` from `src/unnamed/part_000` (lines 576–680), in source
order: `gameUid`, record lookup, verification gate, the already-completed
gate, account parsing, the attested game statistics, the conclusive-status
check, the fee, then the payouts.  The result of each `sendPayout` call is
recorded but — exactly as in the source, which discards the awaited value —
never inspected, and the handler unconditionally finishes with the
`updateGame` patch setting `status := completed`. -/
def postCompleteGame (gameUid : Option String) (account : Option String)
    (game : Option Game) (stats : Option GameStats) (p : FeePolicy)
    (submit : Payout → Bool) :
    Except String (List (Payout × PayoutResult) × Game) :=
  match gameUid with
  | none => .error "Game UID is required"
  | some uid =>
    if uid = "" then .error "Game UID is required"
    else match game with
    | none => .error "Game not found"
    | some g =>
      if g.is_verified = false then .error "Game is not verified"
      else if g.status = .completed then .error "Game is already completed"
      else match account with
      | none => .error "Invalid \"account\" provided"
      | some _ =>
        match stats with
        | none => .error "Unable to get game stats"
        | some stat =>
          if stat.status ≠ DRAW ∧ stat.status ≠ MATE then .error "Game is not over"
          else
            let fee := getFee p g.amount
            if stat.status = DRAW then
              let pay1 : Payout := ⟨g.player_address, g.amount - fee, g.token⟩
              let r1 := sendPayout submit pay1
              match g.opponent_address with
              | some oppAddr =>
                  let pay2 : Payout := ⟨oppAddr, g.amount - fee, g.token⟩
                  let r2 := sendPayout submit pay2
                  .ok ([(pay1, r1), (pay2, r2)], { g with status := .completed })
              | none =>
                  .ok ([(pay1, r1)], { g with status := .completed })
            else
              let winner := lichessWinnerId stat
              match addressesLookup g winner with
              | none => .error ("Address not found for winner: " ++ winner)
              | some winnerAddress =>
                  let pay : Payout := ⟨winnerAddress, g.amount * 2 - fee, g.token⟩
                  let r := sendPayout submit pay
                  .ok ([(pay, r)], { g with status := .completed })

/-- A representative stored game used by the concrete instances below: a
verified 2-SOL wager created by alice (address `ALICE`), joined by bob
(address `BOB`). -/
def gameEx : Game :=
  { id := "uid1", game_id := "lich1", username := "alice", amount := 2,
    token := "SOL", player_address := "ALICE", recipient_address := toPubkeyBase58,
    signature := some "sigC", is_verified := true, is_public := false,
    status := .created, opponent_username := some "bob",
    opponent_address := some "BOB", opponent_signature := some "sigO",
    created_at := none }

/-- The same game right after creator verification, before any opponent
joined. -/
def gameFresh : Game :=
  { gameEx with opponent_username := none, opponent_address := none,
                opponent_signature := none }

/-- A concrete fee policy: 5 percent charge capped at 1. -/
def feeEx : FeePolicy := ⟨5, 1⟩

/-- A finalized, successful 2-SOL deposit transaction to the escrow, used by
the verify-join instances. -/
def depositTxEx : ParsedTx :=
  ⟨some ⟨false⟩, .systemTransfer toPubkeyBase58 2000000000⟩

/-- The record produced by a successful verify-join of bob on `gameFresh`. -/
def gameJoined : Game :=
  { gameFresh with opponent_address := some "BOB",
                   opponent_signature := some "sigO",
                   opponent_username := some "bob" }

/-- Whenever `postCompleteGame` returns a success, the game it was given was
verified and not yet completed, and the returned record is that game with the
status set to `completed` — the single shape of every successful completion. -/
theorem postCompleteGame_ok_shape (uid acc : Option String) (g : Game)
    (stats : Option GameStats) (p : FeePolicy) (submit : Payout → Bool)
    (ps : List (Payout × PayoutResult)) (g' : Game)
    (h : postCompleteGame uid acc (some g) stats p submit = .ok (ps, g')) :
    g' = { g with status := .completed } ∧ g.is_verified = true ∧
    g.status ≠ .completed := by
  unfold postCompleteGame at h
  repeat' first
    | (split at h)
    | (simp_all)

/-- C1: refuted by the code.  `validateSignature` does not bind the payment
to the expected token's registered mint: for a `USDC` game expecting 5 units
at the escrow, a transaction whose first instruction is a `transferChecked`
of the *BONK* mint — which differs from USDC's registered mint — for 5 whole
BONK to the escrow passes verification silently instead of failing with a
payment mismatch, because the code only looks the instruction's mint up among
all registered mints. -/
theorem validateSignature_wrong_mint_silently_accepted :
    (splMapLookup "USDC").map SplInfo.mint =
        some "EPjFWdd5AufqSSqeM2qN1xzybapC8G4wEGGkZwyTDt1v" ∧
    "DezXAZ8z7PnrnRJjz3wXBoRgixCa6xjnB7YaB1pPB263" ≠
        "EPjFWdd5AufqSSqeM2qN1xzybapC8G4wEGGkZwyTDt1v" ∧
    validateSignature { gameEx with token := "USDC", amount := 5 }
      (.transferChecked "DezXAZ8z7PnrnRJjz3wXBoRgixCa6xjnB7YaB1pPB263"
        toPubkeyBase58 500000) = .ok () := by
  refine ⟨by simp +decide [splMapLookup, SPL_MAP], by decide, ?_⟩
  norm_num +decide [validateSignature, gameEx, toPubkeyBase58, splMapFindByMint,
    SPL_MAP, LAMPORTS_PER_SOL]

/-- C2: refuted by the code.  `sendPayout` reports a ledger submission
failure through `success := false` instead of throwing, and `postCompleteGame`
never inspects that flag: a draw completion in which both refund submissions
fail still returns successfully with `status := completed` — the status is
not left unchanged for a safe retry. -/
theorem postCompleteGame_completes_despite_failed_payouts :
    postCompleteGame (some "uid1") (some "CALLER") (some gameEx)
        (some ⟨DRAW, "alice", "bob", none⟩) feeEx (fun _ => false) =
      .ok ([(⟨"ALICE", 19/10, "SOL"⟩, ⟨false⟩), (⟨"BOB", 19/10, "SOL"⟩, ⟨false⟩)],
           { gameEx with status := .completed }) ∧
    ({ gameEx with status := Status.completed } : Game).status ≠ gameEx.status := by
  constructor
  · norm_num +decide [postCompleteGame, gameEx, feeEx, getFee, sendPayout, DRAW,
      MATE, toPubkeyBase58]
  · decide

/-- C6: for a non-negative wager and non-negative fee constants, the fee is
`min (w * CHARGE_PERCENTAGE / 100) CAP_AMOUNT`, never negative and never
above the cap. -/
theorem getFee_eq_min_nonneg_le_cap (p : FeePolicy) (w : ℚ)
    (hw : 0 ≤ w) (hr : 0 ≤ p.CHARGE_PERCENTAGE) (hc : 0 ≤ p.CAP_AMOUNT) :
    getFee p w = min (w * p.CHARGE_PERCENTAGE / 100) p.CAP_AMOUNT ∧
    0 ≤ getFee p w ∧ getFee p w ≤ p.CAP_AMOUNT := by
  refine ⟨?_, ?_, min_le_right _ _⟩
  · unfold getFee
    rw [mul_div_assoc]
  · exact le_min (mul_nonneg hw (div_nonneg hr (by norm_num))) hc

/-- Witness for C6 at the concrete policy (5 percent, cap 1) and wager 2. -/
theorem getFee_eq_min_nonneg_le_cap_witness :
    (0 : ℚ) ≤ 2 ∧
    (getFee ⟨5, 1⟩ 2 = min ((2 : ℚ) * 5 / 100) 1 ∧
     0 ≤ getFee ⟨5, 1⟩ 2 ∧ getFee ⟨5, 1⟩ 2 ≤ (1 : ℚ)) :=
  ⟨by norm_num,
   getFee_eq_min_nonneg_le_cap ⟨5, 1⟩ 2 (by norm_num) (by norm_num) (by norm_num)⟩

/-- C10: refuted by the code.  A create request whose amount parameter is the
non-numeric string `"abc"` is not rejected: `parseFloat` yields `NaN`, the
guard `amount <= 0` is `false` for `NaN`, and the handler inserts a record
with `amount = NaN` (with `status = created` and `is_verified = false`)
instead of failing validation with no record created. -/
theorem postCreateGame_accepts_non_numeric_amount :
    parseFloatJS "abc" = .nan ∧
    jsLe .nan (.num 0) = false ∧
    postCreateGame (fun _ => true)
        { gameId := some "lich1", publicFlag := none, username := some "alice",
          amount := some "abc", token := some "SOL" } (some "ALICE") =
      .ok { game_id := "lich1", username := "alice", amount := .nan,
            token := "SOL", player_address := "ALICE",
            recipient_address := toPubkeyBase58, is_verified := false,
            status := .created, is_public := false } := by
  refine ⟨by norm_num +decide [parseFloatJS], rfl, ?_⟩
  norm_num +decide [postCreateGame, validatedQueryParams, validateUsername,
    validateAmount, validateToken, parseFloatJS, jsLe, jsTruthy, tokenValues]

/-- C3: completing twice in sequence pays exactly once.  Whenever a
`complete` call succeeds, the returned record has `status = completed`, and a
second `complete` call on that record — with any account, outcome, fee policy
and ledger behaviour — fails with the already-completed error and, the error
being raised before any payout code runs, issues no payout. -/
theorem completeGame_pays_once (uid acc : Option String) (g : Game)
    (stats : Option GameStats) (p : FeePolicy) (submit : Payout → Bool)
    (ps : List (Payout × PayoutResult)) (g' : Game)
    (h : postCompleteGame uid acc (some g) stats p submit = .ok (ps, g'))
    (uid2 : String) (huid2 : uid2 ≠ "") (acc2 : Option String)
    (stats2 : Option GameStats) (p2 : FeePolicy) (submit2 : Payout → Bool) :
    g'.status = .completed ∧
    postCompleteGame (some uid2) acc2 (some g') stats2 p2 submit2 =
      .error "Game is already completed" := by
  obtain ⟨hg', hv, -⟩ := postCompleteGame_ok_shape uid acc g stats p submit ps g' h
  subst hg'
  refine ⟨rfl, ?_⟩
  unfold postCompleteGame
  simp [huid2, hv]

/-- Witness for C3: a decisive completion of the example game succeeds with a
single 3.9-SOL payout, and the repeated call on the completed record fails
with the already-completed error. -/
theorem completeGame_pays_once_witness :
    postCompleteGame (some "uid1") (some "CALLER") (some gameEx)
        (some ⟨MATE, "alice", "bob", some "white"⟩) feeEx (fun _ => true) =
      .ok ([(⟨"ALICE", 39/10, "SOL"⟩, ⟨true⟩)], { gameEx with status := .completed }) ∧
    ({ gameEx with status := Status.completed } : Game).status = .completed ∧
    postCompleteGame (some "uid2") none (some { gameEx with status := .completed })
        none feeEx (fun _ => false) = .error "Game is already completed" := by
  have h1 : postCompleteGame (some "uid1") (some "CALLER") (some gameEx)
      (some ⟨MATE, "alice", "bob", some "white"⟩) feeEx (fun _ => true) =
      .ok ([(⟨"ALICE", 39/10, "SOL"⟩, ⟨true⟩)], { gameEx with status := .completed }) := by
    norm_num +decide [postCompleteGame, gameEx, feeEx, getFee, sendPayout, DRAW,
      MATE, lichessWinnerId, addressesLookup, toPubkeyBase58]
  have h2 := completeGame_pays_once (some "uid1") (some "CALLER") gameEx
    (some ⟨MATE, "alice", "bob", some "white"⟩) feeEx (fun _ => true)
    [(⟨"ALICE", 39/10, "SOL"⟩, ⟨true⟩)] { gameEx with status := .completed } h1
    "uid2" (by decide) none none feeEx (fun _ => false)
  exact ⟨h1, h2.1, h2.2⟩

/-- C4: a decisive completion issues exactly one payout of
`2 * wagerAmount - fee` to the address registered for the declared winner's
username — the opponent's stored address when the winner is the opponent's
username, the creator's when it is the creator's — and when the winner's
username matches neither registered username the call fails with the
address-not-found error and issues no payout. -/
theorem completeGame_decisive (uid acc : String) (huid : uid ≠ "")
    (g : Game) (stat : GameStats) (p : FeePolicy) (submit : Payout → Bool)
    (hver : g.is_verified = true) (hst : g.status ≠ .completed)
    (hmate : stat.status = MATE) (ou : String)
    (hou : g.opponent_username = some ou) :
    (∀ oa, g.opponent_address = some oa → lichessWinnerId stat = ou →
      postCompleteGame (some uid) (some acc) (some g) (some stat) p submit =
        .ok ([(⟨oa, 2 * g.amount - getFee p g.amount, g.token⟩,
               sendPayout submit ⟨oa, 2 * g.amount - getFee p g.amount, g.token⟩)],
             { g with status := .completed })) ∧
    (lichessWinnerId stat ≠ ou → lichessWinnerId stat = g.username →
      postCompleteGame (some uid) (some acc) (some g) (some stat) p submit =
        .ok ([(⟨g.player_address, 2 * g.amount - getFee p g.amount, g.token⟩,
               sendPayout submit
                 ⟨g.player_address, 2 * g.amount - getFee p g.amount, g.token⟩)],
             { g with status := .completed })) ∧
    (lichessWinnerId stat ≠ ou → lichessWinnerId stat ≠ g.username →
      postCompleteGame (some uid) (some acc) (some g) (some stat) p submit =
        .error ("Address not found for winner: " ++ lichessWinnerId stat)) := by
  have hmd : stat.status ≠ DRAW := by rw [hmate]; decide
  rw [show (2 : ℚ) * g.amount = g.amount * 2 from mul_comm 2 g.amount]
  refine ⟨?_, ?_, ?_⟩
  · intro oa hoa hwin
    unfold postCompleteGame
    simp +decide [huid, hver, hst, hmate, hmd, addressesLookup, hou, hoa, hwin,
      DRAW, MATE]
  · intro hwin1 hwin2
    have hne : ¬g.username = ou := fun e => hwin1 (hwin2.trans e)
    unfold postCompleteGame
    simp +decide [huid, hver, hst, hmate, hmd, addressesLookup, hou, hwin1,
      hwin2, hne, DRAW, MATE]
  · intro hwin1 hwin2
    unfold postCompleteGame
    simp +decide [huid, hver, hst, hmate, hmd, addressesLookup, hou, hwin1,
      hwin2, DRAW, MATE]

/-- Witness for C4: black (bob, the opponent) winning pays `2*2 - 0.1` SOL to
`BOB`, and a winner username (`carol`) matching neither side fails with the
address-not-found error. -/
theorem completeGame_decisive_witness :
    postCompleteGame (some "uid1") (some "CALLER") (some gameEx)
        (some ⟨MATE, "alice", "bob", some "black"⟩) feeEx (fun _ => true) =
      .ok ([(⟨"BOB", gameEx.amount * 2 - getFee feeEx gameEx.amount, gameEx.token⟩,
             sendPayout (fun _ => true)
               ⟨"BOB", gameEx.amount * 2 - getFee feeEx gameEx.amount, gameEx.token⟩)],
           { gameEx with status := .completed }) ∧
    postCompleteGame (some "uid1") (some "CALLER") (some gameEx)
        (some ⟨MATE, "carol", "bob", some "white"⟩) feeEx (fun _ => true) =
      .error ("Address not found for winner: "
        ++ lichessWinnerId ⟨MATE, "carol", "bob", some "white"⟩) := by
  constructor
  · have h := (completeGame_decisive "uid1" "CALLER" (by decide) gameEx
      ⟨MATE, "alice", "bob", some "black"⟩ feeEx (fun _ => true)
      (by decide) (by decide) rfl "bob" rfl).1 "BOB" rfl (by decide)
    rw [show gameEx.amount * 2 = 2 * gameEx.amount from mul_comm gameEx.amount 2]
    exact h
  · exact (completeGame_decisive "uid1" "CALLER" (by decide) gameEx
      ⟨MATE, "carol", "bob", some "white"⟩ feeEx (fun _ => true)
      (by decide) (by decide) rfl "bob" rfl).2.2 (by decide) (by decide)

/-- C5: a draw completion refunds `wagerAmount - fee` to the creator and,
when an opponent address is present, a second `wagerAmount - fee` payout to
the opponent; when the opponent address is absent only the creator is
refunded and the call still succeeds — the degenerate path is not an
error. -/
theorem completeGame_draw (uid acc : String) (huid : uid ≠ "")
    (g : Game) (stat : GameStats) (p : FeePolicy) (submit : Payout → Bool)
    (hver : g.is_verified = true) (hst : g.status ≠ .completed)
    (hdraw : stat.status = DRAW) :
    (∀ oa, g.opponent_address = some oa →
      postCompleteGame (some uid) (some acc) (some g) (some stat) p submit =
        .ok ([(⟨g.player_address, g.amount - getFee p g.amount, g.token⟩,
               sendPayout submit
                 ⟨g.player_address, g.amount - getFee p g.amount, g.token⟩),
              (⟨oa, g.amount - getFee p g.amount, g.token⟩,
               sendPayout submit ⟨oa, g.amount - getFee p g.amount, g.token⟩)],
             { g with status := .completed })) ∧
    (g.opponent_address = none →
      postCompleteGame (some uid) (some acc) (some g) (some stat) p submit =
        .ok ([(⟨g.player_address, g.amount - getFee p g.amount, g.token⟩,
               sendPayout submit
                 ⟨g.player_address, g.amount - getFee p g.amount, g.token⟩)],
             { g with status := .completed })) := by
  constructor
  · intro oa hoa
    unfold postCompleteGame
    simp [huid, hver, hst, hdraw, hoa, DRAW, MATE]
  · intro hoa
    unfold postCompleteGame
    simp [huid, hver, hst, hdraw, hoa, DRAW, MATE]

/-- Witness for C5: a draw on the joined example game refunds both sides
`2 - 0.1` SOL, and a draw on the never-joined game refunds only the creator
and still succeeds. -/
theorem completeGame_draw_witness :
    postCompleteGame (some "uid1") (some "CALLER") (some gameEx)
        (some ⟨DRAW, "alice", "bob", none⟩) feeEx (fun _ => true) =
      .ok ([(⟨gameEx.player_address, gameEx.amount - getFee feeEx gameEx.amount, gameEx.token⟩,
             sendPayout (fun _ => true)
               ⟨gameEx.player_address, gameEx.amount - getFee feeEx gameEx.amount, gameEx.token⟩),
            (⟨"BOB", gameEx.amount - getFee feeEx gameEx.amount, gameEx.token⟩,
             sendPayout (fun _ => true)
               ⟨"BOB", gameEx.amount - getFee feeEx gameEx.amount, gameEx.token⟩)],
           { gameEx with status := .completed }) ∧
    postCompleteGame (some "uid1") (some "CALLER") (some gameFresh)
        (some ⟨DRAW, "alice", "bob", none⟩) feeEx (fun _ => true) =
      .ok ([(⟨gameFresh.player_address, gameFresh.amount - getFee feeEx gameFresh.amount, gameFresh.token⟩,
             sendPayout (fun _ => true)
               ⟨gameFresh.player_address, gameFresh.amount - getFee feeEx gameFresh.amount, gameFresh.token⟩)],
           { gameFresh with status := .completed }) := by
  constructor
  · exact (completeGame_draw "uid1" "CALLER" (by decide) gameEx
      ⟨DRAW, "alice", "bob", none⟩ feeEx (fun _ => true)
      (by decide) (by decide) rfl).1 "BOB" rfl
  · exact (completeGame_draw "uid1" "CALLER" (by decide) gameFresh
      ⟨DRAW, "alice", "bob", none⟩ feeEx (fun _ => true)
      (by decide) (by decide) rfl).2 rfl

/-- C7: for any game with `is_verified = false`, the join, verify-join and
complete handlers all fail with the not-verified error (the spec's
`IllegalTransition` kind) — the check precedes every effect, so no state
change and no payout occurs. -/
theorem unverified_transitions_rejected (lichessOk : String → Bool) (g : Game)
    (hver : g.is_verified = false) :
    (∀ username gameUid uid u account,
      validateUsername lichessOk username = .ok u → gameUid = some uid → uid ≠ "" →
      postJoinGame lichessOk username gameUid (some g) account =
        .error "Game is not verified") ∧
    (∀ gameUid uid username account signature sigStatus parsedTx,
      gameUid = some uid → uid ≠ "" →
      postVerifyJoinGame lichessOk gameUid username (some g) account signature
        sigStatus parsedTx = .error "Game is not verified") ∧
    (∀ uid account stats p submit, uid ≠ "" →
      postCompleteGame (some uid) account (some g) stats p submit =
        .error "Game is not verified") := by
  refine ⟨?_, ?_, ?_⟩
  · intro username gameUid uid u account hu hg huid
    subst hg
    unfold postJoinGame
    simp [hu, huid, hver]
  · intro gameUid uid username account signature sigStatus parsedTx hg huid
    subst hg
    unfold postVerifyJoinGame
    simp [huid, hver]
  · intro uid account stats p submit huid
    unfold postCompleteGame
    simp [huid, hver]

/-- Witness for C7: on the unverified example game, join, verify-join and
complete all fail with the not-verified error. -/
theorem unverified_transitions_rejected_witness :
    postJoinGame (fun _ => true) (some "bob") (some "uid1")
        (some { gameFresh with is_verified := false }) (some "BOB") =
      .error "Game is not verified" ∧
    postVerifyJoinGame (fun _ => true) (some "uid1") (some "bob")
        (some { gameFresh with is_verified := false }) (some "BOB") (some "sigO")
        (some ⟨some "finalized"⟩) (some depositTxEx) =
      .error "Game is not verified" ∧
    postCompleteGame (some "uid1") (some "CALLER")
        (some { gameFresh with is_verified := false })
        (some ⟨DRAW, "alice", "bob", none⟩) feeEx (fun _ => true) =
      .error "Game is not verified" := by
  have t := unverified_transitions_rejected (fun _ => true)
    { gameFresh with is_verified := false } (by decide)
  exact ⟨t.1 (some "bob") (some "uid1") "uid1" "bob" (some "BOB") rfl rfl (by decide),
         t.2.1 (some "uid1") "uid1" (some "bob") (some "BOB") (some "sigO")
           (some ⟨some "finalized"⟩) (some depositTxEx) rfl (by decide),
         t.2.2 "uid1" (some "CALLER") (some ⟨DRAW, "alice", "bob", none⟩) feeEx
           (fun _ => true) (by decide)⟩

/-- C8: a join (or verify-join) attempt whose validated username equals the
creator's username, or whose account equals the creator's player address,
fails with the self-join error; consequently any record a successful
verify-join produces satisfies `opponent_username ≠ creatorUsername` and
`opponent_address ≠ creatorAddress`. -/
theorem selfJoin_rejected (lichessOk : String → Bool) (g : Game)
    (hver : g.is_verified = true) (hst : g.status = .created) :
    (∀ username gameUid uid account,
      gameUid = some uid → uid ≠ "" →
      validateUsername lichessOk username = .ok g.username →
      postJoinGame lichessOk username gameUid (some g) account =
        .error "You cannot join your own game") ∧
    (∀ username gameUid uid u,
      gameUid = some uid → uid ≠ "" →
      validateUsername lichessOk username = .ok u → g.username ≠ u →
      postJoinGame lichessOk username gameUid (some g) (some g.player_address) =
        .error "You cannot join your own game") ∧
    (∀ gameUid uid username account signature sigStatus parsedTx,
      gameUid = some uid → uid ≠ "" →
      validateUsername lichessOk username = .ok g.username →
      postVerifyJoinGame lichessOk gameUid username (some g) account signature
        sigStatus parsedTx = .error "You cannot join your own game") ∧
    (∀ gameUid uid username u signature sigStatus parsedTx,
      gameUid = some uid → uid ≠ "" →
      validateUsername lichessOk username = .ok u → g.username ≠ u →
      postVerifyJoinGame lichessOk gameUid username (some g)
        (some g.player_address) signature sigStatus parsedTx =
        .error "You cannot join your own game") ∧
    (∀ gameUid username account signature sigStatus parsedTx g',
      postVerifyJoinGame lichessOk gameUid username (some g) account signature
        sigStatus parsedTx = .ok g' →
      g'.opponent_username ≠ some g'.username ∧
      g'.opponent_address ≠ some g'.player_address) := by
  refine ⟨?_, ?_, ?_, ?_, ?_⟩
  · intro username gameUid uid account hg huid hu
    subst hg
    unfold postJoinGame
    simp [hu, huid, hver, hst]
  · intro username gameUid uid u hg huid hu hne
    subst hg
    unfold postJoinGame
    simp [hu, huid, hver, hst, hne]
  · intro gameUid uid username account signature sigStatus parsedTx hg huid hu
    subst hg
    unfold postVerifyJoinGame
    simp [hu, huid, hver, hst]
  · intro gameUid uid username u signature sigStatus parsedTx hg huid hu hne
    subst hg
    unfold postVerifyJoinGame
    simp [hu, huid, hver, hst, hne]
  · intro gameUid username account signature sigStatus parsedTx g' h
    unfold postVerifyJoinGame at h
    repeat' first
      | (split at h)
      | (simp_all)
    subst h
    constructor <;> intro e <;> simp_all

/-- Witness for C8: joining the example game as its creator alice fails, and
joining with a fresh username but the creator's own address fails. -/
theorem selfJoin_rejected_witness :
    postJoinGame (fun _ => true) (some "alice") (some "uid1") (some gameFresh)
        (some "EVE") = .error "You cannot join your own game" ∧
    postJoinGame (fun _ => true) (some "bob") (some "uid1") (some gameFresh)
        (some gameFresh.player_address) = .error "You cannot join your own game" := by
  have t := selfJoin_rejected (fun _ => true) gameFresh (by decide) (by decide)
  exact ⟨t.1 (some "alice") (some "uid1") "uid1" (some "EVE") rfl (by decide) rfl,
         t.2.1 (some "bob") (some "uid1") "uid1" "bob" rfl (by decide) rfl (by decide)⟩

/-- C9 counterexample: a fully successful verify-join on a concrete verified
game returns the record with the opponent fields persisted but with `status`
still `created`, not `matched` — the handler's `updateGame` patch only writes
the three opponent columns and the code never sets the `matched` state. -/
theorem verifyJoin_leaves_status_created :
    postVerifyJoinGame (fun _ => true) (some "uid1") (some "bob")
        (some gameFresh) (some "BOB") (some "sigO") (some ⟨some "finalized"⟩)
        (some depositTxEx) = .ok gameJoined ∧
    gameJoined.status ≠ .matched := by
  constructor
  · norm_num +decide [postVerifyJoinGame, gameJoined, gameFresh, gameEx,
      validateUsername, confirmationRejected, depositTxEx, validateSignature,
      toPubkeyBase58, LAMPORTS_PER_SOL]
  · decide

/-- C9 amended: after a successful verify-join the opponent's address,
signature and validated username are persisted on the record, but the status
field is unchanged — it stays `created` (the code never sets the `matched`
status). -/
theorem verifyJoin_persists_opponent (lichessOk : String → Bool)
    (gameUid username account signature : Option String) (g : Game)
    (sigStatus : Option SigStatusResp) (parsedTx : Option ParsedTx) (g' : Game)
    (h : postVerifyJoinGame lichessOk gameUid username (some g) account signature
      sigStatus parsedTx = .ok g') :
    g'.opponent_address = account ∧ g'.opponent_signature = signature ∧
    (∃ u, validateUsername lichessOk username = .ok u ∧
      g'.opponent_username = some u) ∧
    g'.status = g.status ∧ g'.status = .created ∧ g'.status ≠ .matched := by
  unfold postVerifyJoinGame at h
  repeat' first
    | (split at h)
    | (simp_all)
  subst h
  simp

/-- Witness for C9 at the concrete verify-join of bob on the fresh verified
game. -/
theorem verifyJoin_persists_opponent_witness :
    gameJoined.opponent_address = some "BOB" ∧
    gameJoined.opponent_signature = some "sigO" ∧
    (∃ u, validateUsername (fun _ => true) (some "bob") = .ok u ∧
      gameJoined.opponent_username = some u) ∧
    gameJoined.status = gameFresh.status ∧ gameJoined.status = .created ∧
    gameJoined.status ≠ .matched := by
  have h1 : postVerifyJoinGame (fun _ => true) (some "uid1") (some "bob")
      (some gameFresh) (some "BOB") (some "sigO") (some ⟨some "finalized"⟩)
      (some depositTxEx) = .ok gameJoined := by
    norm_num +decide [postVerifyJoinGame, gameJoined, gameFresh, gameEx,
      validateUsername, confirmationRejected, depositTxEx, validateSignature,
      toPubkeyBase58, LAMPORTS_PER_SOL]
  exact verifyJoin_persists_opponent (fun _ => true) (some "uid1") (some "bob")
    (some "BOB") (some "sigO") gameFresh (some ⟨some "finalized"⟩)
    (some depositTxEx) gameJoined h1
